import Mathlib

/-!
Verification of the node-dependency processing engine of the idea-exploration
backend (`app/agents/idea_agent.py`, `app/core/graphs/base.py`,
`app/core/handlers/*.py`, `app/models/tree.py`).

The Python source is shallowly embedded: pydantic models become structures,
in-place mutation becomes explicit state passing, Python exceptions become
`Except String` / an `Option String` error component (a raised exception that
leaves earlier in-place mutations visible is modelled by returning the
partially updated value together with the error), and the external
collaborators (LLM ensemblers, web search, the code sandbox) are oracles
collected in an `Env` record, exactly at the call boundaries the source uses.
Python truthiness of strings and optional lists is modelled explicitly.
-/

namespace IdeaExploration

/-- `app/models/tree.py` `NodeType`. -/
inductive NodeType where
  | gather
  | calculate
deriving DecidableEq, Repr

/-- `app/models/tree.py` `GatheringMethod`. -/
inductive GatheringMethod where
  | web_search
  | ask_user
deriving DecidableEq, Repr

/-- `app/models/tree.py` `NodeState`. -/
inductive NodeState where
  | pending
  | searching
  | needs_breakdown
  | needs_estimate
  | calculating
  | complete
  | blocked
deriving DecidableEq, Repr

/-- `app/models/tree.py` `SearchQuery`. -/
structure SearchQuery where
  query : String
  context : String
deriving DecidableEq, Repr

/-- `app/models/tree.py` `SearchResult`. -/
structure SearchResult where
  fact : String
  quote : String
deriving DecidableEq, Repr

/-- `app/models/tree.py` `SearchResultWithURL`. -/
structure SearchResultWithURL where
  search_result : SearchResult
  source_url : String
deriving DecidableEq, Repr

/-- `app/models/tree.py` `Estimate`. -/
structure Estimate where
  value : String
  reasoning : String
  assumptions : List String
deriving DecidableEq, Repr

/-- `app/models/tree.py` `InfoNodeSpec`. -/
structure InfoNodeSpec where
  id : String
  question : String
  rationale : String
  node_type : NodeType
  depends_on_ids : List String := []
  gathering_method : Option GatheringMethod := none
  search_queries : Option (List SearchQuery) := none
  calculation_code : Option String := none
  calculation_explanation : Option String := none
  input_node_ids : Option (List String) := none
deriving DecidableEq, Repr

/-- `app/models/tree.py` `BreakdownAttempt`. -/
structure BreakdownAttempt where
  original_question : String
  rationale : String
  new_nodes : List InfoNodeSpec
  was_successful : Bool
deriving DecidableEq, Repr

/-- `app/models/tree.py` `FailedSearchAttempt`. -/
structure FailedSearchAttempt where
  breakdown_attempt : BreakdownAttempt
  search_results : List SearchResultWithURL := []
  estimate : Option Estimate := none
deriving DecidableEq, Repr

/-- `app/models/calculation.py` `CalculationSpec`. -/
structure CalculationSpec where
  code : String
  explanation : String
deriving DecidableEq, Repr

/-- `app/models/calculation.py` `CalculationResult`.  The `result` field is
`Optional[Any]` in the source; the engine only ever stringifies it or stores
it, so it is embedded as an optional string. -/
structure CalculationResult where
  code : String
  explanation : String
  warnings : List String := []
  result : Option String := none
deriving DecidableEq, Repr

/-- `app/models/tree.py` `ProcessingNode` (the UI-only fields
`display_order` / `is_expanded` and the unused `user_input` are dropped:
nothing in the engine reads or writes them). -/
structure ProcessingNode where
  id : String
  question : String
  rationale : String
  node_type : NodeType
  state : NodeState := .pending
  depends_on_ids : List String := []
  gathering_method : Option GatheringMethod := none
  search_queries : Option (List SearchQuery) := none
  search_results : Option (List SearchResultWithURL) := none
  estimate : Option Estimate := none
  calculation_code : Option String := none
  calculation_explanation : Option String := none
  input_node_ids : Option (List String) := none
  calculation_result : Option String := none
  value : Option String := none
  value_source : Option String := none
  breakdown_attempt : Option BreakdownAttempt := none
deriving DecidableEq, Repr

/-- `gathered_facts : Dict[str, str]`, as an ordered key-value list with
Python-dict update semantics (`dictInsert`). -/
abbrev Facts := List (String × String)

/-- `d[k] = v` on a Python dict: replace in place if the key exists,
otherwise append. -/
def dictInsert (d : Facts) (k v : String) : Facts :=
  if d.any (fun p => p.1 == k) then
    d.map (fun p => if p.1 == k then (k, v) else p)
  else
    d ++ [(k, v)]

/-- Python truthiness of an `Optional[List[...]]` field (`None` and `[]` are
falsy). -/
def optListTruthy {α : Type} : Option (List α) → Bool
  | none => false
  | some l => !l.isEmpty

/-- Python truthiness of an `Optional[str]` field (`None` and the empty
string are falsy). -/
def optStrTruthy : Option String → Bool
  | none => false
  | some s => !(s == "")

/-- A Python `assert cond, msg`: raises `AssertionError` when the condition
is falsy. -/
def pyAssert (b : Bool) (msg : String) : Except String Unit :=
  if b then .ok () else .error msg

/-- The type-specific tail of `GraphGenerator._validate_node`. -/
def validate_node_type (node : InfoNodeSpec) : Except String Unit :=
  match node.node_type with
  | .gather =>
      if node.gathering_method = none then
        .error "Gather node must have gathering method"
      else if node.gathering_method = some .web_search
          ∧ optListTruthy node.search_queries = false then
        .error "Search node must have queries"
      else
        .ok ()
  | .calculate =>
      if optStrTruthy node.calculation_code = false then
        .error "Calculate node must have code"
      else if optStrTruthy node.calculation_explanation = false then
        .error "Calculate node must have explanation"
      else if optListTruthy node.input_node_ids = false then
        .error "Calculate node must have input nodes"
      else
        .ok ()

/-- `GraphGenerator._validate_node` (`app/core/graphs/base.py`): the
assertion chain over one node, given the ids seen so far (a Python `assert`
raises exactly when its condition is falsy). -/
def validate_node (node : InfoNodeSpec) (existing_ids : List String) :
    Except String Unit :=
  if node.id = "" then .error "Node must have id"
  else if node.question = "" then .error "Node must have question"
  else if node.rationale = "" then .error "Node must have rationale"
  else if node.id ∈ existing_ids then .error "Duplicate node id"
  else if ¬ (∀ d ∈ node.depends_on_ids, d ∈ existing_ids) then
    .error "Dependency not found"
  else validate_node_type node

/-- The per-node loop of `GraphGenerator._validate_graph`, threading the set
of already-seen ids (the first failing assertion aborts the loop). -/
def validate_nodes : List InfoNodeSpec → List String → Except String Unit
  | [], _ => .ok ()
  | n :: rest, seen =>
    match validate_node n seen with
    | .error e => .error e
    | .ok _ => validate_nodes rest (seen ++ [n.id])

/-- `GraphGenerator._validate_graph`: the empty-graph assertion followed by
the per-node loop. -/
def validate_graph (nodes : List InfoNodeSpec) : Except String Unit :=
  if nodes.isEmpty then .error "Graph must have nodes"
  else validate_nodes nodes []

/-! The invalidity conditions exactly as the claim states them
(for the refinement theorem of claim C6): these definitions follow the
specification text, not the source, and are compared with `validate_graph`. -/

/-- Spec wording: the node lacks id, question, or rationale. -/
def specLacksBasics (n : InfoNodeSpec) : Prop :=
  n.id = "" ∨ n.question = "" ∨ n.rationale = ""

/-- Spec wording: a gather node without a gathering method, or a WebSearch
gather node without search queries. -/
def specBadGather (n : InfoNodeSpec) : Prop :=
  n.node_type = .gather ∧
    (n.gathering_method = none ∨
      (n.gathering_method = some .web_search ∧ optListTruthy n.search_queries = false))

/-- Spec wording: a Calculate node missing calculation code, explanation, or
input_node_ids. -/
def specBadCalc (n : InfoNodeSpec) : Prop :=
  n.node_type = .calculate ∧
    (optStrTruthy n.calculation_code = false ∨
      optStrTruthy n.calculation_explanation = false ∨
      optListTruthy n.input_node_ids = false)

/-- Spec wording, per node: duplicate id, dangling dependency, or one of the
shape conditions, relative to the ids seen earlier. -/
def specNodeInvalid (n : InfoNodeSpec) (seen : List String) : Prop :=
  specLacksBasics n ∨ n.id ∈ seen ∨ (∃ d ∈ n.depends_on_ids, d ∉ seen) ∨
    specBadGather n ∨ specBadCalc n

/-- Spec wording, over the node list in generation order. -/
def specAnyNodeInvalid : List InfoNodeSpec → List String → Prop
  | [], _ => False
  | n :: rest, seen => specNodeInvalid n seen ∨ specAnyNodeInvalid rest (seen ++ [n.id])

/-- Spec wording: the whole-specification invalidity condition of claim C6. -/
def specGraphInvalid (nodes : List InfoNodeSpec) : Prop :=
  nodes = [] ∨ specAnyNodeInvalid nodes []

instance : DecidablePred specLacksBasics := fun n => by
  unfold specLacksBasics; infer_instance

instance : DecidablePred specBadGather := fun n => by
  unfold specBadGather; infer_instance

instance : DecidablePred specBadCalc := fun n => by
  unfold specBadCalc; infer_instance

instance specNodeInvalidDec (n : InfoNodeSpec) (seen : List String) :
    Decidable (specNodeInvalid n seen) := by
  unfold specNodeInvalid; infer_instance

instance specAnyNodeInvalidDec :
    (nodes : List InfoNodeSpec) → (seen : List String) →
      Decidable (specAnyNodeInvalid nodes seen)
  | [], _ => by unfold specAnyNodeInvalid; infer_instance
  | n :: rest, seen => by
      unfold specAnyNodeInvalid
      have := specAnyNodeInvalidDec rest (seen ++ [n.id])
      infer_instance

instance (nodes : List InfoNodeSpec) : Decidable (specGraphInvalid nodes) := by
  unfold specGraphInvalid; infer_instance

/-! ## External collaborators

The LLM ensemblers, the web search stack and the code sandbox are the
out-of-scope collaborators of the specification; each appears here as an
oracle at exactly the call boundary the engine uses.  A call either raises
(`Except.error`, caught by the node processor) or returns the parsed
response. -/

/-- The outcome of `exec(spec.code, sandbox_globals)` inside
`CalculationHandler.execute_calculation`: the code raised, or it finished
and the sandbox globals do or do not contain a `result` binding. -/
inductive ExecOutcome where
  | raised (e : String)
  | finished (result : Option String)
deriving DecidableEq, Repr

/-- The collaborator oracles. -/
structure Env where
  /-- `SearchHandler.search_and_analyze` (empty list = no results). -/
  search_and_analyze : String → List SearchQuery → Except String (List SearchResultWithURL)
  /-- The breakdown LLM call inside
  `FailedSearchBreakdownHandler.generate_search_breakdown`. -/
  breakdown_llm : String → String → List String → Facts → Except String BreakdownAttempt
  /-- The estimation LLM call inside `EstimateHandler.generate_estimate`. -/
  estimate_llm : String → String → List String → Facts → Except String Estimate
  /-- The code-synthesis LLM call inside
  `CalculationHandler.generate_calculation`. -/
  calc_llm : String → List (String × Option String) → Except String CalculationSpec
  /-- The sandboxed `exec` inside `CalculationHandler.execute_calculation`. -/
  calc_exec : CalculationSpec → List (String × Option String) → ExecOutcome

/-- `FailedSearchBreakdownHandler.generate_search_breakdown`: LLM call plus
the trailing assertion on the parsed `BreakdownAttempt`. -/
def generate_search_breakdown (env : Env) (question context : String)
    (failed_searches : List String) (known_facts : Facts) :
    Except String BreakdownAttempt := do
  let b ← env.breakdown_llm question context failed_searches known_facts
  pyAssert (!(b.original_question == "") && !(b.rationale == "")
    && !b.new_nodes.isEmpty) "AssertionError"
  pure b

/-- `EstimateHandler.generate_estimate`: LLM call plus the trailing assertion
on the parsed `Estimate`. -/
def generate_estimate (env : Env) (question context : String)
    (failed_searches : List String) (known_facts : Facts) :
    Except String Estimate := do
  let e ← env.estimate_llm question context failed_searches known_facts
  pyAssert (!(e.value == "") && !(e.reasoning == "") && !e.assumptions.isEmpty)
    "AssertionError"
  pure e

/-- The sub-search loop of
`FailedSearchBreakdownHandler.handle_failed_search`: accumulates all
non-empty sub-results, and extends the failed-search list with the queries
of sub-nodes whose search came back empty. -/
def sub_searches (env : Env) :
    List InfoNodeSpec → List SearchResultWithURL → List String →
      Except String (List SearchResultWithURL × List String)
  | [], acc, failed => .ok (acc, failed)
  | n :: rest, acc, failed =>
    if optListTruthy n.search_queries then do
      let rs ← env.search_and_analyze n.question (n.search_queries.getD [])
      if rs.isEmpty then
        sub_searches env rest acc (failed ++ (n.search_queries.getD []).map (·.query))
      else
        sub_searches env rest (acc ++ rs) failed
    else
      sub_searches env rest acc failed

/-- `FailedSearchBreakdownHandler.handle_failed_search`: breakdown plan,
sub-searches, then either a successful attempt (`was_successful := true`)
or the estimation fallback (`was_successful := false`). -/
def handle_failed_search (env : Env) (question context : String)
    (failed_searches : List String) (known_facts : Facts) :
    Except String FailedSearchAttempt := do
  let breakdown ← generate_search_breakdown env question context failed_searches known_facts
  let (all_results, all_failed) ← sub_searches env breakdown.new_nodes [] failed_searches
  if !all_results.isEmpty then
    pure { breakdown_attempt := { breakdown with was_successful := true },
           search_results := all_results, estimate := none }
  else do
    let est ← generate_estimate env question context all_failed known_facts
    pure { breakdown_attempt := { breakdown with was_successful := false },
           search_results := [], estimate := some est }

/-- `CalculationHandler.generate_calculation`: LLM call plus the trailing
assertion on the parsed `CalculationSpec`. -/
def generate_calculation (env : Env) (question : String)
    (available_data : List (String × Option String)) : Except String CalculationSpec := do
  let spec ← env.calc_llm question available_data
  pyAssert (!(spec.code == "") && !(spec.explanation == "")) "AssertionError"
  pure spec

/-- `CalculationHandler.execute_calculation`: runs the sandbox and catches
every exception, turning it into a warning with a `None` result; a missing
`result` binding raises a `ValueError` that is caught by the same handler. -/
def execute_calculation (outcome : ExecOutcome) (spec : CalculationSpec) :
    CalculationResult :=
  match outcome with
  | .raised e =>
      { code := spec.code, explanation := spec.explanation,
        warnings := ["Calculation failed: " ++ e], result := none }
  | .finished none =>
      { code := spec.code, explanation := spec.explanation,
        warnings := ["Calculation failed: Calculation code must set a result variable"],
        result := none }
  | .finished (some r) =>
      { code := spec.code, explanation := spec.explanation,
        warnings := [], result := some r }

/-! ## Batch-mode node processing (`IdeaAgent`) -/

/-- `next(n for n in graph.nodes if n.id == dep_id)`: first node with the
given id (`none` models the `StopIteration` of an exhausted generator). -/
def findNode (nodes : List ProcessingNode) (nid : String) : Option ProcessingNode :=
  nodes.find? (fun n => n.id == nid)

/-- `IdeaAgent._get_context_for_node`. -/
def contextForNode (node : ProcessingNode) : String :=
  "Attempting to answer: " ++ node.question ++ "\nRationale: " ++ node.rationale

/-- `"; ".join(r.search_result.fact for r in results)`. -/
def joinFacts (results : List SearchResultWithURL) : String :=
  String.intercalate "; " (results.map (fun r => r.search_result.fact))

/-- Lines 337-340 of `IdeaAgent._process_gather_node`: the unconditional
tail of the `web_search` branch, run with whatever `results` currently
holds. -/
def finishWebSearch (node : ProcessingNode) (results : List SearchResultWithURL) :
    ProcessingNode :=
  { node with value := some (joinFacts results),
              value_source := some "search",
              search_results := some results }

/-- Lines 332-334 of `IdeaAgent._process_gather_node` (estimation fallback):
store the estimate and take its value. -/
def applyEstimate (node : ProcessingNode) (est : Estimate) : ProcessingNode :=
  { node with estimate := some est,
              value := some est.value,
              value_source := some "estimate" }

/-- `IdeaAgent._process_gather_node`.  The result pairs the node as mutated
so far with an optional raised exception (picked up by the caller's
`except` clause). -/
def process_gather_node (env : Env) (facts : Facts) (node : ProcessingNode) :
    ProcessingNode × Option String :=
  if node.gathering_method = some .web_search then
    match node.search_queries with
    | none => ({ node with state := .searching }, some "TypeError: search_queries is None")
    | some qs =>
      match env.search_and_analyze node.question qs with
      | .error e => ({ node with state := .searching }, some e)
      | .ok results =>
        if results.isEmpty then
          match handle_failed_search env node.question
              (contextForNode { node with state := .needs_breakdown })
              (qs.map (·.query)) facts with
          | .error e => ({ node with state := .needs_breakdown }, some e)
          | .ok failed_attempt =>
            if !failed_attempt.search_results.isEmpty then
              (finishWebSearch
                { node with state := .needs_breakdown,
                            breakdown_attempt := some failed_attempt.breakdown_attempt }
                failed_attempt.search_results, none)
            else
              match failed_attempt.estimate with
              | none =>
                  ({ node with state := .needs_breakdown,
                               breakdown_attempt := some failed_attempt.breakdown_attempt },
                   some "AttributeError: estimate is None")
              | some est =>
                  (finishWebSearch
                    (applyEstimate
                      { node with state := .needs_breakdown,
                                  breakdown_attempt := some failed_attempt.breakdown_attempt }
                      est) [], none)
        else
          (finishWebSearch { node with state := .searching } results, none)
  else if node.gathering_method = some .ask_user then
    ({ node with state := .blocked }, none)
  else
    (node, none)

/-- The `input_values` loop of `IdeaAgent._process_calculate_node`
(`none` models the `StopIteration` for an id with no matching node). -/
def collectInputValues (nodes : List ProcessingNode) :
    List String → Option (List (String × Option String))
  | [] => some []
  | i :: rest =>
    match findNode nodes i with
    | none => none
    | some n => (collectInputValues nodes rest).map (fun r => (i, n.value) :: r)

/-- Python `str(...)` on the `Optional` calculation result:
`str(None) = "None"`. -/
def pyStrOpt : Option String → String
  | none => "None"
  | some s => s

/-- `IdeaAgent._process_calculate_node`. -/
def process_calculate_node (env : Env) (nodes : List ProcessingNode)
    (node : ProcessingNode) : ProcessingNode × Option String :=
  match node.input_node_ids with
  | none => ({ node with state := .calculating }, some "TypeError: input_node_ids is None")
  | some ids =>
    match collectInputValues nodes ids with
    | none => ({ node with state := .calculating }, some "StopIteration")
    | some input_values =>
      match generate_calculation env node.question input_values with
      | .error e => ({ node with state := .calculating }, some e)
      | .ok calculation =>
        ({ node with
            state := .calculating,
            value := some (pyStrOpt
              (execute_calculation (env.calc_exec calculation input_values)
                calculation).result),
            value_source := some "calculation",
            calculation_result :=
              (execute_calculation (env.calc_exec calculation input_values)
                calculation).result }, none)

/-- The `try` body dispatch of `IdeaAgent._process_node`. -/
def process_node_dispatch (env : Env) (nodes : List ProcessingNode) (facts : Facts)
    (node : ProcessingNode) : ProcessingNode × Option String :=
  match node.node_type with
  | .gather => process_gather_node env facts node
  | .calculate => process_calculate_node env nodes node

/-- `IdeaAgent._process_node`: dispatch on the node type, fold a non-null
value into the gathered facts, then mark the node `COMPLETE`; any raised
exception is caught and the node forced to `BLOCKED` instead. -/
def process_node (env : Env) (nodes : List ProcessingNode) (facts : Facts)
    (node : ProcessingNode) : ProcessingNode × Facts :=
  match process_node_dispatch env nodes facts node with
  | (n1, some _) => ({ n1 with state := .blocked }, facts)
  | (n1, none) =>
      ({ n1 with state := .complete },
       match n1.value with
       | some v => dictInsert facts n1.question v
       | none => facts)

/-! ## Batch-mode scheduler (`IdeaAgent._process_graph`) -/

/-- The dependency check of `IdeaAgent._get_ready_nodes` for one id.
The source raises `StopIteration` on an id with no matching node; the claims
about the scheduler are therefore stated under the hypothesis that every
dependency id resolves, where `false` and the exception agree (neither makes
the node ready). -/
def depComplete (nodes : List ProcessingNode) (dep_id : String) : Bool :=
  match findNode nodes dep_id with
  | some dn => decide (dn.state = .complete)
  | none => false

/-- The readiness test of `IdeaAgent._get_ready_nodes` for one node. -/
def isReady (nodes : List ProcessingNode) (n : ProcessingNode) : Bool :=
  decide (n.state = .pending) && n.depends_on_ids.all (depComplete nodes)

/-- `IdeaAgent._get_ready_nodes`. -/
def get_ready_nodes (nodes : List ProcessingNode) : List ProcessingNode :=
  nodes.filter (isReady nodes)

/-- The positions of the ready nodes (the source keeps object references
into `graph.nodes`; the embedding keeps positions instead). -/
def readyIndices (nodes : List ProcessingNode) : List Nat :=
  (List.range nodes.length).filter (fun i =>
    match nodes.get? i with
    | some n => isReady nodes n
    | none => false)

/-- `IdeaAgent._has_in_progress_nodes`: `Searching`, `Calculating` or
`NeedsBreakdown` (not `Blocked`). -/
def has_in_progress_nodes (nodes : List ProcessingNode) : Bool :=
  nodes.any (fun n =>
    decide (n.state = .searching) || decide (n.state = .calculating)
      || decide (n.state = .needs_breakdown))

/-- One `for node in ready_nodes` pass of `IdeaAgent._process_graph`:
process the snapshot of ready positions in order, each step seeing the
mutations of the previous ones. -/
def processReadyAt (env : Env) :
    List Nat → List ProcessingNode → Facts → List ProcessingNode × Facts
  | [], nodes, facts => (nodes, facts)
  | i :: rest, nodes, facts =>
    match nodes.get? i with
    | none => processReadyAt env rest nodes facts
    | some n =>
      processReadyAt env rest (nodes.set i (process_node env nodes facts n).1)
        (process_node env nodes facts n).2

/-- `IdeaAgent._process_graph`, with explicit fuel for the `while True`
loop: `none` means the fuel ran out (the source would still be looping). -/
def process_graph_fuel (env : Env) :
    Nat → List ProcessingNode → Facts → Option (List ProcessingNode × Facts)
  | 0, _, _ => none
  | fuel + 1, nodes, facts =>
    if (readyIndices nodes).isEmpty then
      if has_in_progress_nodes nodes then process_graph_fuel env fuel nodes facts
      else some (nodes, facts)
    else
      process_graph_fuel env fuel
        (processReadyAt env (readyIndices nodes) nodes facts).1
        (processReadyAt env (readyIndices nodes) nodes facts).2

/-! ## External-input resumption, batch mode (`IdeaAgent.set_user_input`) -/

/-- The two graphs and the fact set held on the agent
(`self.key_info_graph`, `self.exploration_graph`, `self.gathered_facts`). -/
structure AgentGraphs where
  key_info_graph : Option (List ProcessingNode) := none
  exploration_graph : Option (List ProcessingNode) := none
  gathered_facts : Facts := []
deriving DecidableEq, Repr

/-- The inner `for node in graph.nodes` of `IdeaAgent.set_user_input` over
one graph: `none` when no node has the id (keep scanning), otherwise the
raise-or-update outcome at the first matching node. -/
def set_user_input_graph (nodes : List ProcessingNode) (facts : Facts)
    (node_id user_input : String) :
    Option (Except String (List ProcessingNode × Facts)) :=
  match nodes.findIdx? (fun n => n.id == node_id) with
  | none => none
  | some i =>
    match nodes.get? i with
    | none => none
    | some node =>
      if node.state ≠ .blocked ∨ node.gathering_method ≠ some .ask_user then
        some (.error ("Node " ++ node_id ++ " is not waiting for user input"))
      else
        some (.ok
          (nodes.set i { node with value := some user_input,
                                   value_source := some "user",
                                   state := .complete },
           dictInsert facts node.question user_input))

/-- The exploration-graph half of `IdeaAgent.set_user_input`, reached when
the key-info graph is absent or does not contain the id. -/
def set_user_input_expl (ag : AgentGraphs) (node_id user_input : String) :
    Except String AgentGraphs :=
  match ag.exploration_graph with
  | some g =>
    (match set_user_input_graph g ag.gathered_facts node_id user_input with
     | some (.error e) => .error e
     | some (.ok p) =>
         .ok { ag with exploration_graph := some p.1, gathered_facts := p.2 }
     | none => .error ("Node " ++ node_id ++ " not found"))
  | none => .error ("Node " ++ node_id ++ " not found")

/-- `IdeaAgent.set_user_input`: scan the key-info graph then the exploration
graph; raise `ValueError` if the node is absent everywhere or is not a
blocked ask-user node; otherwise set value, source and state and fold the
answer into the fact set.  An error leaves the agent state untouched
(nothing is mutated before the raise in the source). -/
def set_user_input (ag : AgentGraphs) (node_id user_input : String) :
    Except String AgentGraphs :=
  match ag.key_info_graph with
  | some g =>
    (match set_user_input_graph g ag.gathered_facts node_id user_input with
     | some (.error e) => .error e
     | some (.ok p) =>
         .ok { ag with key_info_graph := some p.1, gathered_facts := p.2 }
     | none => set_user_input_expl ag node_id user_input)
  | none => set_user_input_expl ag node_id user_input

/-! ## Suspend/resume mode (`WebSocketIdeaAgent`) -/

/-- Whether `WebSocketIdeaAgent._send_node_value_update` raises: it iterates
`node.search_results`, which is a `TypeError` when that field is `None`.
(The payload itself goes to the side channel and is not modelled.) -/
def sendValueUpdateErr (node : ProcessingNode) : Option String :=
  match node.search_results with
  | none => some "TypeError: NoneType is not iterable"
  | some _ => none

/-- How the body of the `try` block of `WebSocketIdeaAgent._process_node`
ended: an exception was raised, the branch returned early, or control fell
through to the final `node.state = COMPLETE`. -/
inductive WsOutcome where
  | raised (e : String)
  | early
  | fallthrough
deriving DecidableEq, Repr

/-- The `try` body of `WebSocketIdeaAgent._process_node`.  Branch structure
as in the source: `if node.node_type == "gather"` (whose only inner branch
is `web_search`), `elif node.gathering_method == "ask_user"` (reachable only
for non-gather nodes, since the first branch already captured every gather
node), `elif node.node_type == "calculate"`.  Unlike the batch agent, this
override stores no `breakdown_attempt` on the node and never touches the
gathered facts. -/
def ws_process_node_try (env : Env) (nodes : List ProcessingNode) (facts : Facts)
    (node : ProcessingNode) : ProcessingNode × WsOutcome :=
  if node.node_type = .gather then
    if node.gathering_method = some .web_search then
      let node := { node with state := .searching }
      match node.search_queries with
      | none => (node, .raised "TypeError: search_queries is None")
      | some qs =>
        match env.search_and_analyze node.question qs with
        | .error e => (node, .raised e)
        | .ok results =>
          if results.isEmpty then
            let node := { node with state := .needs_breakdown }
            match handle_failed_search env node.question (contextForNode node)
                (qs.map (·.query)) facts with
            | .error e => (node, .raised e)
            | .ok failed_attempt =>
              if !failed_attempt.search_results.isEmpty then
                let node := finishWebSearch node failed_attempt.search_results
                (node, .fallthrough)
              else
                match failed_attempt.estimate with
                | none => (node, .raised "AttributeError: estimate is None")
                | some est =>
                  let node := applyEstimate node est
                  match sendValueUpdateErr node with
                  | some e => (node, .raised e)
                  | none => (node, .early)
          else
            (finishWebSearch node results, .fallthrough)
    else
      (node, .fallthrough)
  else if node.gathering_method = some .ask_user then
    ({ node with state := .blocked }, .early)
  else if node.node_type = .calculate then
    let node := { node with state := .calculating }
    match node.input_node_ids with
    | none => (node, .raised "TypeError: input_node_ids is None")
    | some ids =>
      match collectInputValues nodes ids with
      | none => (node, .raised "StopIteration")
      | some input_values =>
        match generate_calculation env node.question input_values with
        | .error e => (node, .raised e)
        | .ok calculation =>
          let result := execute_calculation (env.calc_exec calculation input_values)
            calculation
          let node := { node with value := some (pyStrOpt result.result),
                                  value_source := some "calculation",
                                  calculation_result := result.result }
          match sendValueUpdateErr node with
          | some e => (node, .raised e)
          | none => (node, .fallthrough)
  else
    (node, .fallthrough)

/-- `WebSocketIdeaAgent._process_node`: the `try` body, then either the
final `COMPLETE` assignment, the early return, or the `except` clause
forcing `BLOCKED`. -/
def ws_process_node (env : Env) (nodes : List ProcessingNode) (facts : Facts)
    (node : ProcessingNode) : ProcessingNode :=
  let step := ws_process_node_try env nodes facts node
  match step.2 with
  | .raised _ => { step.1 with state := .blocked }
  | .early => step.1
  | .fallthrough => { step.1 with state := .complete }

/-- The dependent-selection filter of `WebSocketIdeaAgent.set_user_input`
(lines 674-678): every `Pending` node listing the resumed id among its
dependencies, with no check of its other dependencies. -/
def dependentIndices (nodes : List ProcessingNode) (nid : String) : List Nat :=
  (List.range nodes.length).filter (fun i =>
    match nodes.get? i with
    | some n => n.depends_on_ids.contains nid && decide (n.state = .pending)
    | none => false)

/-- The fast-path loop of `WebSocketIdeaAgent.set_user_input`: process each
selected dependent in order with the suspend/resume node processor. -/
def ws_fast_path (env : Env) (facts : Facts) :
    List Nat → List ProcessingNode → List ProcessingNode
  | [], nodes => nodes
  | i :: rest, nodes =>
    match nodes.get? i with
    | none => ws_fast_path env facts rest nodes
    | some n => ws_fast_path env facts rest (nodes.set i (ws_process_node env nodes facts n))

/-- The body of `WebSocketIdeaAgent.set_user_input` once the node has been
located at position `i`: the invalid-state check, the value/source updates,
the value notification (which raises `TypeError` when `search_results` is
`None`, leaving the already-performed mutations in place), the `COMPLETE`
transition, the fact-set fold, and the fast path over dependents.  Returns
the updated graph and facts together with the optional raised error. -/
def ws_set_user_input_core (env : Env) (nodes : List ProcessingNode) (facts : Facts)
    (i : Nat) (node : ProcessingNode) (node_id user_input : String) :
    List ProcessingNode × Facts × Option String :=
  if node.state ≠ .blocked ∨ node.gathering_method ≠ some .ask_user then
    (nodes, facts, some ("Node " ++ node_id ++ " is not waiting for user input"))
  else
    let node2 := { node with value := some user_input, value_source := some "user" }
    match sendValueUpdateErr node2 with
    | some e => (nodes.set i node2, facts, some e)
    | none =>
      let node3 := { node2 with state := .complete }
      let nodes3 := nodes.set i node3
      let facts3 := dictInsert facts node.question user_input
      (ws_fast_path env facts3 (dependentIndices nodes3 node_id) nodes3, facts3, none)

/-- `WebSocketIdeaAgent.set_user_input`: locate the node (key-info graph
first, then exploration graph), then run the core update; the result pairs
the final agent state with the optional raised error. -/
def ws_set_user_input (env : Env) (ag : AgentGraphs) (node_id user_input : String) :
    AgentGraphs × Option String :=
  match ag.key_info_graph with
  | some g =>
    (match g.findIdx? (fun n => n.id == node_id) with
     | some i =>
       (match g.get? i with
        | some n =>
          let r := ws_set_user_input_core env g ag.gathered_facts i n node_id user_input
          ({ ag with key_info_graph := some r.1, gathered_facts := r.2.1 }, r.2.2)
        | none => (ag, some ("Node " ++ node_id ++ " not found")))
     | none => ws_set_user_input_snd env ag node_id user_input)
  | none => ws_set_user_input_snd env ag node_id user_input
where
  /-- The exploration-graph half of the lookup. -/
  ws_set_user_input_snd (env : Env) (ag : AgentGraphs) (node_id user_input : String) :
      AgentGraphs × Option String :=
    match ag.exploration_graph with
    | some g =>
      (match g.findIdx? (fun n => n.id == node_id) with
       | some i =>
         (match g.get? i with
          | some n =>
            let r := ws_set_user_input_core env g ag.gathered_facts i n node_id user_input
            ({ ag with exploration_graph := some r.1, gathered_facts := r.2.1 }, r.2.2)
          | none => (ag, some ("Node " ++ node_id ++ " not found")))
       | none => (ag, some ("Node " ++ node_id ++ " not found")))
    | none => (ag, some ("Node " ++ node_id ++ " not found"))

/-! ## Multi-round driver (`IdeaAgent._gather_key_info` /
`GraphGenerator._generate_sequential_graphs`) -/

/-- `GraphGenerator._convert_processed_nodes` for one node: a processed node
converted back to an `InfoNodeSpec` (state, value and results are dropped by
the conversion). -/
def convert_processed_node (n : ProcessingNode) : InfoNodeSpec :=
  { id := n.id, question := n.question, rationale := n.rationale,
    node_type := n.node_type, depends_on_ids := n.depends_on_ids,
    gathering_method := n.gathering_method, search_queries := n.search_queries,
    calculation_code := n.calculation_code,
    calculation_explanation := n.calculation_explanation,
    input_node_ids := n.input_node_ids }

/-- `GraphGenerator._convert_processed_nodes`. -/
def convert_processed_nodes (l : List ProcessingNode) : List InfoNodeSpec :=
  l.map convert_processed_node

/-- `IdeaAgent._create_processing_graph` for one spec node: a fresh
`ProcessingNode` in state `Pending` with empty results. -/
def create_processing_node (s : InfoNodeSpec) : ProcessingNode :=
  { id := s.id, question := s.question, rationale := s.rationale,
    node_type := s.node_type, depends_on_ids := s.depends_on_ids,
    gathering_method := s.gathering_method, search_queries := s.search_queries,
    calculation_code := s.calculation_code,
    calculation_explanation := s.calculation_explanation,
    input_node_ids := s.input_node_ids }

/-- `IdeaAgent._create_processing_graph`. -/
def create_processing_graph (specs : List InfoNodeSpec) : List ProcessingNode :=
  specs.map create_processing_node

/-- `GraphGenerator._generate_sequential_graphs`: the goal guard, then the
seed of every previously explored node converted back to a spec, then the
concatenated model contributions of the round, then validation of the
combined graph (`contrib` stands for what the provider/model loop appended
to `all_nodes` this round). -/
def generate_sequential_graphs (contrib : List InfoNodeSpec)
    (explored : List ProcessingNode) (goal : String) :
    Except String (List InfoNodeSpec) :=
  if goal = "" then .error "Goal is required for graph generation."
  else
    match validate_graph (convert_processed_nodes explored ++ contrib) with
    | .error e => .error e
    | .ok _ => .ok (convert_processed_nodes explored ++ contrib)

/-- `(graph.nodes where state == Pending).length`: the termination measure of
the batch scheduler loop. -/
def countPending (nodes : List ProcessingNode) : Nat :=
  nodes.countP (fun n => decide (n.state = .pending))

/-- The outcome of a driver run (`IdeaAgent._gather_key_info`): the
returned cumulative graph and fact set, or the propagated exception —
plus an instrumentation counter of how many generation rounds were entered
(the source exposes the same information through its call trace to the
generation collaborator; the counter only records that trace's length). -/
structure DriverRun where
  result : Except String (List ProcessingNode × Facts)
  rounds : Nat
deriving Repr

/-- The `for depth in range(max_depth)` loop of
`IdeaAgent._gather_key_info`: generate (with the seed of all previously
processed nodes), convert, run the scheduler to fixpoint, append to the
cumulative list, and stop early if the round's graph has no nodes.  The
scheduler is given fuel `countPending + 1`, which is proved sufficient for
every freshly converted graph (`process_graph_fuel_some`); the `none`
branch is unreachable there. -/
def gather_key_info_loop (env : Env) (contrib : Nat → List InfoNodeSpec)
    (goal : String) :
    Nat → Nat → List ProcessingNode → Facts → Nat → DriverRun
  | 0, _, all, facts, rounds => ⟨.ok (all, facts), rounds⟩
  | fuel + 1, depth, all, facts, rounds =>
    match generate_sequential_graphs (contrib depth) all goal with
    | .error e => ⟨.error e, rounds + 1⟩
    | .ok specs =>
      match process_graph_fuel env (countPending (create_processing_graph specs) + 1)
          (create_processing_graph specs) facts with
      | none => ⟨.error "unreachable: scheduler fuel exhausted", rounds + 1⟩
      | some r =>
        if r.1.isEmpty then ⟨.ok (all ++ r.1, r.2), rounds + 1⟩
        else gather_key_info_loop env contrib goal fuel (depth + 1) (all ++ r.1) r.2
          (rounds + 1)

/-- `IdeaAgent._gather_key_info`, starting from an empty cumulative list and
the agent's fact set. -/
def gather_key_info (env : Env) (contrib : Nat → List InfoNodeSpec)
    (goal : String) (max_depth : Nat) (facts : Facts) : DriverRun :=
  gather_key_info_loop env contrib goal max_depth 0 [] facts 0

/-- Helper: `Except.isOk`. -/
def exceptIsOk {ε α : Type} : Except ε α → Bool
  | .ok _ => true
  | .error _ => false

/-- Decidable equality on `Except`, for evaluating the closed scenarios. -/
instance exceptDecEq {ε α : Type} [DecidableEq ε] [DecidableEq α] :
    DecidableEq (Except ε α) := fun a b =>
  match a, b with
  | .error x, .error y =>
      if h : x = y then .isTrue (by rw [h])
      else .isFalse (fun hc => by cases hc; exact h rfl)
  | .error _, .ok _ => .isFalse (fun hc => by cases hc)
  | .ok _, .error _ => .isFalse (fun hc => by cases hc)
  | .ok x, .ok y =>
      if h : x = y then .isTrue (by rw [h])
      else .isFalse (fun hc => by cases hc; exact h rfl)

/-! ## Concrete fixtures used by the counterexample and witness theorems -/

/-- A web-search result used by the concrete scenarios. -/
def srOne : SearchResultWithURL :=
  { search_result := { fact := "rent is 40 per sqft", quote := "q" },
    source_url := "http://example.com" }

/-- A gather/WebSearch node whose search will come back empty. -/
def gatherNodeA : ProcessingNode :=
  { id := "n1", question := "average rent", rationale := "needed",
    node_type := .gather, gathering_method := some .web_search,
    search_queries := some [{ query := "rent downtown", context := "c" }] }

/-- The breakdown sub-node proposed for `gatherNodeA`. -/
def subNodeA : InfoNodeSpec :=
  { id := "s1", question := "median retail rent", rationale := "narrower",
    node_type := .gather, gathering_method := some .web_search,
    search_queries := some [{ query := "median rent 2024", context := "c" }] }

/-- The breakdown plan returned by the breakdown collaborator. -/
def breakdownA : BreakdownAttempt :=
  { original_question := "average rent", rationale := "try narrower",
    new_nodes := [subNodeA], was_successful := false }

/-- The estimate returned by the estimation collaborator. -/
def estimateA : Estimate :=
  { value := "about 40", reasoning := "extrapolated", assumptions := ["a1"] }

/-- Environment in which every web search returns no results, so the
fallback chain runs to the estimation stage. -/
def envAllSearchesFail : Env :=
  { search_and_analyze := fun _ _ => .ok []
    breakdown_llm := fun _ _ _ _ => .ok breakdownA
    estimate_llm := fun _ _ _ _ => .ok estimateA
    calc_llm := fun _ _ => .ok { code := "result = 1", explanation := "e" }
    calc_exec := fun _ _ => .raised "boom" }

/-- Environment in which the original search fails but the breakdown
sub-search succeeds. -/
def envSubSearchSucceeds : Env :=
  { envAllSearchesFail with
    search_and_analyze := fun q _ =>
      if q = "median retail rent" then .ok [srOne] else .ok [] }

/-- A gather/AskUser node, as freshly converted (Pending). -/
def askUserNode : ProcessingNode :=
  { id := "n2", question := "monthly budget", rationale := "needed",
    node_type := .gather, gathering_method := some .ask_user }

/-- A Calculate node whose inputs are `n1`. -/
def calcNode : ProcessingNode :=
  { id := "n3", question := "breakeven", rationale := "needed",
    node_type := .calculate, calculation_code := some "result = 1",
    calculation_explanation := some "e", input_node_ids := some ["n1"] }

/-- A completed `n1` carrying a value, used as the input of `calcNode`. -/
def completedN1 : ProcessingNode :=
  { gatherNodeA with state := .complete, value := some "40",
                     value_source := some "search" }

/-- A blocked ask-user node (as the batch agent's error handler or a
suspended session leaves it), `search_results` still `None`. -/
def blockedAskNode : ProcessingNode :=
  { id := "u", question := "monthly budget", rationale := "needed",
    node_type := .gather, gathering_method := some .ask_user, state := .blocked }

/-- Agent state holding `blockedAskNode` in the key-info graph. -/
def agBlocked : AgentGraphs :=
  { key_info_graph := some [blockedAskNode], gathered_facts := [] }

/-- A blocked ask-user node whose `search_results` field holds an (empty)
list, so the value notification of the suspend/resume resumption path does
not raise and the fast path is reached. -/
def blockedAskNodeWithSR : ProcessingNode :=
  { blockedAskNode with
    id := "a", question := "own the site", search_results := some [] }

/-- A pending gather node depending only on `a`, whose search will raise,
leaving it `Blocked`. -/
def depNodeC : ProcessingNode :=
  { id := "c", question := "zoning rules", rationale := "needed",
    node_type := .gather, gathering_method := some .web_search,
    search_queries := some [{ query := "zoning", context := "c" }],
    depends_on_ids := ["a"] }

/-- A pending gather node depending on both `a` and `c`. -/
def depNodeB : ProcessingNode :=
  { id := "b", question := "permit cost", rationale := "needed",
    node_type := .gather, gathering_method := some .web_search,
    search_queries := some [{ query := "permit", context := "c" }],
    depends_on_ids := ["a", "c"] }

/-- Environment for the fast-path scenario: the search for `c`'s question
raises, the search for `b`'s question succeeds. -/
def envFastPath : Env :=
  { envAllSearchesFail with
    search_and_analyze := fun q _ =>
      if q = "zoning rules" then .error "network down"
      else .ok [srOne] }

/-- Agent state for the fast-path scenario. -/
def agFastPath : AgentGraphs :=
  { key_info_graph := some [blockedAskNodeWithSR, depNodeC, depNodeB],
    gathered_facts := [] }

/-- The round-0 contribution of the driver scenarios: the single
`gatherNodeA` specification. -/
def specN1 : InfoNodeSpec := convert_processed_node gatherNodeA

/-- Round contributions: one node in round 0, nothing afterwards. -/
def contribOnce : Nat → List InfoNodeSpec
  | 0 => [specN1]
  | _ + 1 => []

/-- Environment for the driver scenarios: every search succeeds. -/
def envSearchOk : Env :=
  { envAllSearchesFail with search_and_analyze := fun _ _ => .ok [srOne] }

/-- The node of the estimation fall-through scenario just after
`node.breakdown_attempt` is assigned (line 325 of the source), before the
estimation assignments and the unconditional search tail run over it. -/
def estimateMidNode : ProcessingNode :=
  { gatherNodeA with
    state := .needs_breakdown,
    breakdown_attempt := some { breakdownA with was_successful := false } }

/-- The property claim C1 asserts of every node the scheduler selects:
it is `Pending` and each of its dependencies resolves to a `Complete`
node. -/
def depsCompleteProp (nodes : List ProcessingNode) (n : ProcessingNode) : Prop :=
  n.state = .pending ∧
    ∀ d ∈ n.depends_on_ids, ∃ m, findNode nodes d = some m ∧ m.state = .complete

/-- What the suspend/resume fast path actually selects: a node at position
`i` that is `Pending` and lists the resumed id — with no condition on its
other dependencies. -/
def dependentSelProp (nodes : List ProcessingNode) (nid : String) (i : Nat) : Prop :=
  ∃ n, nodes.get? i = some n ∧ nid ∈ n.depends_on_ids ∧ n.state = .pending

/-- A pending gather node depending on the already-complete `n1`; used to
exercise the ready-set computation. -/
def demoReadyNode : ProcessingNode :=
  { id := "d1", question := "walk traffic", rationale := "needed",
    node_type := .gather, gathering_method := some .web_search,
    search_queries := some [{ query := "traffic", context := "c" }],
    depends_on_ids := ["n1"] }

/-- A two-node graph with one complete node and one ready node. -/
def demoNodes : List ProcessingNode := [completedN1, demoReadyNode]

/-- Occurrences of an id in a processed-node list. -/
def countNodeId (nodes : List ProcessingNode) (x : String) : Nat :=
  (nodes.map (fun n => n.id)).count x

/-- Occurrences of an id in a specification list. -/
def countSpecId (specs : List InfoNodeSpec) (x : String) : Nat :=
  (specs.map (fun s => s.id)).count x

/-- The calculation specification used by the failing-calculation run. -/
def calcSpecDemo : CalculationSpec := { code := "result = 1", explanation := "e" }

/-- The failing-calculation result of `execute_calculation`. -/
def calcFailResult : CalculationResult :=
  execute_calculation (.raised "boom") calcSpecDemo

/-- Batch processing of `calcNode` in the environment whose sandbox raises. -/
def calcFailRun : ProcessingNode × Facts :=
  process_node envAllSearchesFail [completedN1, calcNode] [] calcNode

/-- Batch gather processing of `gatherNodeA` when every search fails
(the estimation fall-through path). -/
def estimateFallRun : ProcessingNode × Option String :=
  process_gather_node envAllSearchesFail [] gatherNodeA

/-- Batch gather processing of `gatherNodeA` when the breakdown sub-search
succeeds. -/
def subSearchRun : ProcessingNode × Option String :=
  process_gather_node envSubSearchSucceeds [] gatherNodeA

/-- Batch node processing of the AskUser node. -/
def askUserRun : ProcessingNode × Facts :=
  process_node envAllSearchesFail [askUserNode] [] askUserNode

/-- The suspend/resume resumption call on the blocked ask-user node (whose
`search_results` is `None`, as every real ask-user node's is). -/
def wsCrashRun : AgentGraphs × Option String :=
  ws_set_user_input envAllSearchesFail agBlocked "u" "5000"

/-- The suspend/resume resumption call in the fast-path scenario. -/
def fastPathRun : AgentGraphs × Option String :=
  ws_set_user_input envFastPath agFastPath "a" "yes"

/-- An agent holding no graphs. -/
def emptyAgent : AgentGraphs := { key_info_graph := none, exploration_graph := none }

/-! ## Helper lemmas -/

theorem countP_set {α : Type} (p : α → Bool) (l : List α) :
    ∀ (i : Nat) (a b : α), l.get? i = some b →
      (l.set i a).countP p + (if p b then 1 else 0)
        = l.countP p + (if p a then 1 else 0) := by
  induction l with
  | nil => intro i a b h; simp at h
  | cons x xs ih =>
      intro i a b h
      cases i with
      | zero =>
          simp only [List.get?_cons_zero, Option.some_inj] at h
          subst h
          simp only [List.set_cons_zero, List.countP_cons]
          omega
      | succ j =>
          simp only [List.get?_cons_succ] at h
          simp only [List.set_cons_succ, List.countP_cons]
          have := ih j a b h
          omega

theorem set_get_self {α : Type} (l : List α) :
    ∀ (i : Nat) (b : α), l.get? i = some b → l.set i b = l := by
  induction l with
  | nil => intro i b h; simp at h
  | cons x xs ih =>
      intro i b h
      cases i with
      | zero =>
          simp only [List.get?_cons_zero, Option.some_inj] at h
          subst h
          simp
      | succ j =>
          simp only [List.get?_cons_succ] at h
          simp [ih j b h]

theorem process_gather_node_id (env : Env) (facts : Facts) (node : ProcessingNode) :
    (process_gather_node env facts node).1.id = node.id := by
  unfold process_gather_node finishWebSearch applyEstimate
  repeat' split
  all_goals simp

theorem process_calculate_node_id (env : Env) (nodes : List ProcessingNode)
    (node : ProcessingNode) :
    (process_calculate_node env nodes node).1.id = node.id := by
  unfold process_calculate_node
  repeat' split
  all_goals simp

theorem process_node_dispatch_id (env : Env) (nodes : List ProcessingNode)
    (facts : Facts) (node : ProcessingNode) :
    (process_node_dispatch env nodes facts node).1.id = node.id := by
  unfold process_node_dispatch
  cases node.node_type
  · exact process_gather_node_id env facts node
  · exact process_calculate_node_id env nodes node

theorem process_node_state (env : Env) (nodes : List ProcessingNode) (facts : Facts)
    (node : ProcessingNode) :
    (process_node env nodes facts node).1.state = .complete
    ∨ (process_node env nodes facts node).1.state = .blocked := by
  unfold process_node
  rcases h : process_node_dispatch env nodes facts node with ⟨n1, e⟩
  cases e <;> simp

theorem process_node_not_pending (env : Env) (nodes : List ProcessingNode)
    (facts : Facts) (node : ProcessingNode) :
    ¬ (process_node env nodes facts node).1.state = .pending := by
  rcases process_node_state env nodes facts node with h | h <;> rw [h] <;> intro hc <;>
    cases hc

theorem process_node_id (env : Env) (nodes : List ProcessingNode) (facts : Facts)
    (node : ProcessingNode) :
    (process_node env nodes facts node).1.id = node.id := by
  have hd := process_node_dispatch_id env nodes facts node
  unfold process_node
  rcases h : process_node_dispatch env nodes facts node with ⟨n1, e⟩
  rw [h] at hd
  cases e <;> simpa using hd

theorem map_id_processReadyAt (env : Env) :
    ∀ (L : List Nat) (nodes : List ProcessingNode) (facts : Facts),
      (processReadyAt env L nodes facts).1.map (fun n => n.id)
        = nodes.map (fun n => n.id) := by
  intro L
  induction L with
  | nil => intro nodes facts; rfl
  | cons i rest ih =>
      intro nodes facts
      unfold processReadyAt
      cases h : nodes.get? i with
      | none => exact ih nodes facts
      | some n =>
          rw [ih]
          rw [List.map_set]
          rw [process_node_id]
          apply set_get_self
          rw [List.get?_map, h]
          rfl

theorem length_processReadyAt (env : Env) (L : List Nat)
    (nodes : List ProcessingNode) (facts : Facts) :
    (processReadyAt env L nodes facts).1.length = nodes.length := by
  have := congrArg List.length (map_id_processReadyAt env L nodes facts)
  simpa using this

theorem countPending_set_le (nodes : List ProcessingNode) (i : Nat)
    (n m : ProcessingNode) (h : nodes.get? i = some n)
    (hm : ¬ m.state = .pending) :
    countPending (nodes.set i m) ≤ countPending nodes := by
  have := countP_set (fun x => decide (x.state = .pending)) nodes i m n h
  unfold countPending
  simp only [hm] at this
  simp at this
  omega

theorem countPending_set_lt (nodes : List ProcessingNode) (i : Nat)
    (n m : ProcessingNode) (h : nodes.get? i = some n)
    (hn : n.state = .pending) (hm : ¬ m.state = .pending) :
    countPending (nodes.set i m) < countPending nodes := by
  have := countP_set (fun x => decide (x.state = .pending)) nodes i m n h
  unfold countPending
  simp only [hm, hn] at this
  simp at this
  omega

theorem countPending_processReadyAt_le (env : Env) :
    ∀ (L : List Nat) (nodes : List ProcessingNode) (facts : Facts),
      countPending (processReadyAt env L nodes facts).1 ≤ countPending nodes := by
  intro L
  induction L with
  | nil => intro nodes facts; exact Nat.le_refl _
  | cons i rest ih =>
      intro nodes facts
      unfold processReadyAt
      cases h : nodes.get? i with
      | none => exact ih nodes facts
      | some n =>
          refine Nat.le_trans (ih _ _) ?_
          exact countPending_set_le nodes i n _ h (process_node_not_pending env nodes facts n)

theorem countPending_processReadyAt_lt (env : Env) (i : Nat) (rest : List Nat)
    (nodes : List ProcessingNode) (facts : Facts) (n : ProcessingNode)
    (h : nodes.get? i = some n) (hp : n.state = .pending) :
    countPending (processReadyAt env (i :: rest) nodes facts).1 < countPending nodes := by
  unfold processReadyAt
  rw [h]
  refine Nat.lt_of_le_of_lt (countPending_processReadyAt_le env rest _ _) ?_
  exact countPending_set_lt nodes i n _ h hp (process_node_not_pending env nodes facts n)

theorem readyIndices_mem (nodes : List ProcessingNode) (i : Nat)
    (h : i ∈ readyIndices nodes) :
    ∃ n, nodes.get? i = some n ∧ isReady nodes n = true := by
  unfold readyIndices at h
  rw [List.mem_filter] at h
  rcases h with ⟨-, h2⟩
  cases hg : nodes.get? i with
  | none => rw [hg] at h2; cases h2
  | some n => rw [hg] at h2; exact ⟨n, rfl, h2⟩

theorem isReady_pending (nodes : List ProcessingNode) (n : ProcessingNode)
    (h : isReady nodes n = true) : n.state = .pending := by
  unfold isReady at h
  rw [Bool.and_eq_true] at h
  exact of_decide_eq_true h.1

theorem has_in_progress_false_iff (nodes : List ProcessingNode) :
    has_in_progress_nodes nodes = false ↔
      ∀ n ∈ nodes, ¬ n.state = .searching ∧ ¬ n.state = .calculating
        ∧ ¬ n.state = .needs_breakdown := by
  unfold has_in_progress_nodes
  rw [List.any_eq_false]
  constructor
  · intro h n hn
    have := h n hn
    simp at this
    tauto
  · intro h n hn
    have := h n hn
    simp
    tauto

theorem noInProgress_set (nodes : List ProcessingNode) (i : Nat)
    (m : ProcessingNode) (h : has_in_progress_nodes nodes = false)
    (hm : m.state = .complete ∨ m.state = .blocked) :
    has_in_progress_nodes (nodes.set i m) = false := by
  rw [has_in_progress_false_iff] at h ⊢
  intro n hn
  rcases List.mem_or_eq_of_mem_set hn with h1 | h2
  · exact h n h1
  · subst h2
    rcases hm with hc | hc <;> rw [hc] <;> exact ⟨by simp, by simp, by simp⟩

theorem noInProgress_processReadyAt (env : Env) :
    ∀ (L : List Nat) (nodes : List ProcessingNode) (facts : Facts),
      has_in_progress_nodes nodes = false →
      has_in_progress_nodes (processReadyAt env L nodes facts).1 = false := by
  intro L
  induction L with
  | nil => intro nodes facts h; exact h
  | cons i rest ih =>
      intro nodes facts h
      unfold processReadyAt
      cases hg : nodes.get? i with
      | none => exact ih nodes facts h
      | some n =>
          exact ih _ _ (noInProgress_set nodes i _ h (process_node_state env nodes facts n))

theorem process_graph_fuel_isSome (env : Env) :
    ∀ (fuel : Nat) (nodes : List ProcessingNode) (facts : Facts),
      countPending nodes < fuel → has_in_progress_nodes nodes = false →
      (process_graph_fuel env fuel nodes facts).isSome = true := by
  intro fuel
  induction fuel with
  | zero => intro nodes facts h _; omega
  | succ f ih =>
      intro nodes facts hcount hprog
      unfold process_graph_fuel
      by_cases hready : (readyIndices nodes).isEmpty
      · simp [hready, hprog]
      · rw [if_neg hready]
        cases hL : readyIndices nodes with
        | nil => rw [hL] at hready; simp at hready
        | cons i rest =>
            obtain ⟨n, hg, hr⟩ := readyIndices_mem nodes i
              (by rw [hL]; exact List.mem_cons_self i rest)
            have hp := isReady_pending nodes n hr
            have hlt := countPending_processReadyAt_lt env i rest nodes facts n hg hp
            apply ih
            · omega
            · exact noInProgress_processReadyAt env _ nodes facts hprog

theorem process_graph_fuel_map_id (env : Env) :
    ∀ (fuel : Nat) (nodes : List ProcessingNode) (facts : Facts)
      (r : List ProcessingNode × Facts),
      process_graph_fuel env fuel nodes facts = some r →
      r.1.map (fun n => n.id) = nodes.map (fun n => n.id) := by
  intro fuel
  induction fuel with
  | zero => intro nodes facts r h; cases h
  | succ f ih =>
      intro nodes facts r h
      unfold process_graph_fuel at h
      by_cases hready : (readyIndices nodes).isEmpty
      · rw [if_pos hready] at h
        by_cases hprog : has_in_progress_nodes nodes
        · rw [if_pos hprog] at h
          exact ih nodes facts r h
        · rw [if_neg hprog] at h
          cases h
          rfl
      · rw [if_neg hready] at h
        rw [ih _ _ r h]
        exact map_id_processReadyAt env _ nodes facts

theorem process_graph_fuel_length (env : Env) (fuel : Nat)
    (nodes : List ProcessingNode) (facts : Facts) (r : List ProcessingNode × Facts)
    (h : process_graph_fuel env fuel nodes facts = some r) :
    r.1.length = nodes.length := by
  have := congrArg List.length (process_graph_fuel_map_id env fuel nodes facts r h)
  simpa using this

theorem validate_node_type_ok_iff (n : InfoNodeSpec) :
    validate_node_type n = .ok () ↔ ¬ (specBadGather n ∨ specBadCalc n) := by
  unfold validate_node_type specBadGather specBadCalc
  cases hnt : n.node_type <;> simp only [hnt] <;> split_ifs <;> simp_all

theorem validate_node_ok_iff (n : InfoNodeSpec) (seen : List String) :
    validate_node n seen = .ok () ↔ ¬ specNodeInvalid n seen := by
  unfold validate_node specNodeInvalid specLacksBasics
  split_ifs with h1 h2 h3 h4 h5
  all_goals try push_neg at h5
  all_goals simp_all [validate_node_type_ok_iff]

theorem validate_nodes_ok_iff :
    ∀ (l : List InfoNodeSpec) (seen : List String),
      validate_nodes l seen = .ok () ↔ ¬ specAnyNodeInvalid l seen := by
  intro l
  induction l with
  | nil => intro seen; simp [validate_nodes, specAnyNodeInvalid]
  | cons n rest ih =>
      intro seen
      unfold validate_nodes specAnyNodeInvalid
      cases hv : validate_node n seen with
      | error e =>
          have hne : ¬ (validate_node n seen = .ok ()) := by
            rw [hv]; intro hc; cases hc
          rw [validate_node_ok_iff, not_not] at hne
          simp [hne]
      | ok u =>
          cases u
          have hok : ¬ specNodeInvalid n seen := (validate_node_ok_iff n seen).mp hv
          rw [ih]
          simp [hok]

theorem validate_graph_ok_iff (nodes : List InfoNodeSpec) :
    exceptIsOk (validate_graph nodes) = true ↔ ¬ specGraphInvalid nodes := by
  unfold validate_graph specGraphInvalid
  split_ifs with h
  · rw [List.isEmpty_iff] at h
    simp [h, exceptIsOk]
  · rw [List.isEmpty_iff] at h
    cases hv : validate_nodes nodes [] with
    | error e =>
        have hinv : specAnyNodeInvalid nodes [] := by
          by_contra hc
          have := (validate_nodes_ok_iff nodes []).mpr hc
          rw [hv] at this
          cases this
        simp [exceptIsOk, h, hinv]
    | ok u =>
        cases u
        have hok := (validate_nodes_ok_iff nodes []).mp hv
        simp [exceptIsOk, h, hok]

theorem validate_graph_ok_ne_nil (nodes : List InfoNodeSpec)
    (h : validate_graph nodes = .ok ()) : nodes ≠ [] := by
  intro hnil
  rw [hnil] at h
  unfold validate_graph at h
  simp at h

theorem generate_sequential_graphs_ok (contrib : List InfoNodeSpec)
    (explored : List ProcessingNode) (goal : String) (specs : List InfoNodeSpec)
    (h : generate_sequential_graphs contrib explored goal = .ok specs) :
    specs = convert_processed_nodes explored ++ contrib
    ∧ validate_graph specs = .ok () ∧ specs ≠ [] := by
  unfold generate_sequential_graphs at h
  by_cases hg : goal = ""
  · rw [if_pos hg] at h; cases h
  · rw [if_neg hg] at h
    cases hv : validate_graph (convert_processed_nodes explored ++ contrib) with
    | error e => rw [hv] at h; cases h
    | ok u =>
        cases u
        rw [hv] at h
        cases h
        exact ⟨rfl, hv, validate_graph_ok_ne_nil _ hv⟩

theorem countNodeId_append (a b : List ProcessingNode) (x : String) :
    countNodeId (a ++ b) x = countNodeId a x + countNodeId b x := by
  unfold countNodeId
  rw [List.map_append, List.count_append]

theorem countNodeId_create (specs : List InfoNodeSpec) (x : String) :
    countNodeId (create_processing_graph specs) x = countSpecId specs x := by
  unfold countNodeId countSpecId create_processing_graph
  rw [List.map_map]
  rfl

theorem countSpecId_convert (l : List ProcessingNode) (x : String) :
    countSpecId (convert_processed_nodes l) x = countNodeId l x := by
  unfold countNodeId countSpecId convert_processed_nodes
  rw [List.map_map]
  rfl

theorem countNodeId_process_graph (env : Env) (fuel : Nat)
    (nodes : List ProcessingNode) (facts : Facts) (r : List ProcessingNode × Facts)
    (x : String) (h : process_graph_fuel env fuel nodes facts = some r) :
    countNodeId r.1 x = countNodeId nodes x := by
  unfold countNodeId
  rw [process_graph_fuel_map_id env fuel nodes facts r h]

theorem round_graph_nonempty (env : Env) (specs : List InfoNodeSpec) (facts : Facts)
    (r : List ProcessingNode × Facts) (hne : specs ≠ [])
    (hp : process_graph_fuel env (countPending (create_processing_graph specs) + 1)
      (create_processing_graph specs) facts = some r) :
    ¬ r.1.isEmpty = true := by
  rw [List.isEmpty_iff]
  intro hnil
  have hlen := process_graph_fuel_length env _ _ _ r hp
  rw [hnil] at hlen
  unfold create_processing_graph at hlen
  simp at hlen
  exact hne (List.length_eq_zero.mp (by omega))

theorem gather_loop_rounds (env : Env) (contrib : Nat → List InfoNodeSpec)
    (goal : String) :
    ∀ (fuel depth : Nat) (all : List ProcessingNode) (facts : Facts) (rounds : Nat)
      (p : List ProcessingNode × Facts),
      (gather_key_info_loop env contrib goal fuel depth all facts rounds).result = .ok p →
      (gather_key_info_loop env contrib goal fuel depth all facts rounds).rounds
        = rounds + fuel := by
  intro fuel
  induction fuel with
  | zero => intro depth all facts rounds p h; simp [gather_key_info_loop]
  | succ f ih =>
      intro depth all facts rounds p h
      unfold gather_key_info_loop at h ⊢
      cases hg : generate_sequential_graphs (contrib depth) all goal with
      | error e => simp [hg] at h
      | ok specs =>
          simp only [hg] at h ⊢
          obtain ⟨hseq, hval, hne⟩ := generate_sequential_graphs_ok _ _ _ _ hg
          cases hp : process_graph_fuel env
              (countPending (create_processing_graph specs) + 1)
              (create_processing_graph specs) facts with
          | none => simp [hp] at h
          | some r =>
              simp only [hp] at h ⊢
              have hr1 := round_graph_nonempty env specs facts r hne hp
              rw [if_neg hr1] at h ⊢
              rw [ih (depth + 1) (all ++ r.1) r.2 (rounds + 1) p h]
              omega

theorem gather_loop_count (env : Env) (contrib : Nat → List InfoNodeSpec)
    (goal : String) (x : String) :
    ∀ (fuel depth : Nat), 1 ≤ depth →
      (∀ k, 1 ≤ k → countSpecId (contrib k) x = 0) →
      ∀ (all : List ProcessingNode) (facts : Facts) (rounds : Nat)
        (p : List ProcessingNode × Facts),
      (gather_key_info_loop env contrib goal fuel depth all facts rounds).result = .ok p →
      countNodeId p.1 x = 2 ^ fuel * countNodeId all x := by
  intro fuel
  induction fuel with
  | zero =>
      intro depth hd hk all facts rounds p h
      unfold gather_key_info_loop at h
      cases h
      simp
  | succ f ih =>
      intro depth hd hk all facts rounds p h
      unfold gather_key_info_loop at h
      cases hg : generate_sequential_graphs (contrib depth) all goal with
      | error e => simp [hg] at h
      | ok specs =>
          simp only [hg] at h
          obtain ⟨hseq, hval, hne⟩ := generate_sequential_graphs_ok _ _ _ _ hg
          cases hp : process_graph_fuel env
              (countPending (create_processing_graph specs) + 1)
              (create_processing_graph specs) facts with
          | none => simp [hp] at h
          | some r =>
              simp only [hp] at h
              have hr1 := round_graph_nonempty env specs facts r hne hp
              rw [if_neg hr1] at h
              have hcnt : countNodeId r.1 x = countNodeId all x := by
                rw [countNodeId_process_graph env _ _ _ r x hp]
                rw [countNodeId_create, hseq]
                unfold countSpecId
                rw [List.map_append, List.count_append]
                have h0 := hk depth hd
                unfold countSpecId at h0
                have hc := countSpecId_convert all x
                unfold countSpecId countNodeId at hc
                rw [h0, hc]
                unfold countNodeId
                omega
              have := ih (depth + 1) (by omega) hk (all ++ r.1) r.2 (rounds + 1) p h
              rw [this, countNodeId_append, hcnt]
              ring

/-! ## Theorems for the claims -/

/-- Claim C2 (code bug): when the initial search and every breakdown
sub-search return zero results, the claim (and the spec) say the node ends
with `value_source = "estimate"` and the estimate's value; the batch code
instead falls through into the unconditional search tail of
`_process_gather_node`, which overwrites `value_source` with `"search"` and
`value` with the empty join of the (empty) result list.  The successful
sub-search branch, by contrast, behaves as claimed
(`value_source = "search"`, `was_successful = true`). -/
theorem claim_C2_estimate_overwritten :
    estimateFallRun.2 = none
    ∧ estimateFallRun.1.value_source = some "search"
    ∧ estimateFallRun.1.value = some ""
    ∧ estimateFallRun.1.estimate = some estimateA
    ∧ estimateA.value = "about 40"
    ∧ estimateFallRun.1.breakdown_attempt
        = some { breakdownA with was_successful := false }
    ∧ subSearchRun.1.value_source = some "search"
    ∧ subSearchRun.1.breakdown_attempt
        = some { breakdownA with was_successful := true } := by
  decide

/-- Claim C3 (code bug): an AskUser gather node does not stay `Blocked`.
In batch mode `_process_gather_node` does set `Blocked`, but `_process_node`
then unconditionally overwrites the state with `Complete` (with no value);
in suspend/resume mode the `ask_user` branch is dead code for gather nodes
(it is an `elif` of `node.node_type == "gather"`), so the node goes straight
to `Complete`. -/
theorem claim_C3_ask_user_not_blocked :
    (process_gather_node envAllSearchesFail [] askUserNode).1.state = .blocked
    ∧ askUserRun.1.state = .complete
    ∧ askUserRun.1.value = none
    ∧ ws_process_node envAllSearchesFail [askUserNode] [] askUserNode
        = { askUserNode with state := .complete } := by
  decide

/-- Claim C4 (code bug): a failing sandboxed calculation does produce a
non-empty warning list and a `None` result and never raises past the node
processor, but the node's `value` does not stay null: `_process_calculate_node`
stringifies the `None` result, so `value = "None"` (and that string is even
folded into the gathered facts). -/
theorem claim_C4_failed_calculation_value :
    calcFailResult.warnings = ["Calculation failed: boom"]
    ∧ calcFailResult.result = none
    ∧ calcFailRun.1.state = .complete
    ∧ calcFailRun.1.value = some "None"
    ∧ calcFailRun.1.calculation_result = none
    ∧ calcFailRun.2 = [("breakeven", "None")] := by
  decide

/-- Claim C5 (code bug): on the estimation fall-through path of
`_process_gather_node` the node's `value_source` is assigned twice: the
estimate assignments (`applyEstimate`) set it to `"estimate"`, and the
unconditional search tail (`finishWebSearch`) then overwrites it with
`"search"`; the run below follows exactly that path. -/
theorem claim_C5_value_source_overwritten :
    estimateFallRun = (finishWebSearch (applyEstimate estimateMidNode estimateA) [], none)
    ∧ (applyEstimate estimateMidNode estimateA).value_source = some "estimate"
    ∧ (finishWebSearch (applyEstimate estimateMidNode estimateA) []).value_source
        = some "search" := by
  decide

/-- Claim C1, counterexample (closed): in the suspend/resume fast path of
`set_user_input`, resuming node `a` processes the pending dependent `b`
even though `b`'s other dependency `c` is not `Complete`: in the final state
`b` is `Complete` (processed, `value_source = "search"`) while `c` is
`Blocked` and was never `Complete` (it starts `Pending` and its only
transition in this call is to `Blocked`).  The scheduler therefore moved
`b` out of `Pending` while a dependency was incomplete. -/
theorem claim_C1_counterexample :
    depNodeB.state = .pending
    ∧ depNodeB.depends_on_ids = ["a", "c"]
    ∧ depNodeC.state = .pending
    ∧ (fastPathRun.1.key_info_graph.map (fun g => g.map (fun n => (n.id, n.state))))
        = some [("a", .complete), ("c", .blocked), ("b", .complete)]
    ∧ (fastPathRun.1.key_info_graph.map (fun g => g.map (fun n => n.value_source)))
        = some [some "user", none, some "search"]
    ∧ fastPathRun.2 = none := by
  decide

/-- Claim C1, amended: the batch ready-set computation
(`_get_ready_nodes`) selects only `Pending` nodes all of whose dependencies
resolve to `Complete` nodes; but the suspend/resume fast path of
`set_user_input` selects every `Pending` node that merely lists the resumed
id among its dependencies — with no check of its other dependencies — and
processes it, so the invariant does not hold on that path. -/
theorem claim_C1_amended :
    (∀ (nodes : List ProcessingNode) (n : ProcessingNode),
      (∀ m ∈ nodes, ∀ d ∈ m.depends_on_ids, (findNode nodes d).isSome = true) →
      n ∈ get_ready_nodes nodes → depsCompleteProp nodes n)
    ∧ (∀ (nodes : List ProcessingNode) (nid : String) (i : Nat),
        i ∈ dependentIndices nodes nid ↔ dependentSelProp nodes nid i) := by
  constructor
  · intro nodes n _ hn
    unfold get_ready_nodes at hn
    rw [List.mem_filter] at hn
    obtain ⟨hmem, hr⟩ := hn
    refine ⟨isReady_pending nodes n hr, ?_⟩
    intro d hd
    unfold isReady at hr
    rw [Bool.and_eq_true] at hr
    have hall := hr.2
    rw [List.all_eq_true] at hall
    have hdc := hall d hd
    unfold depComplete at hdc
    cases hf : findNode nodes d with
    | none => rw [hf] at hdc; cases hdc
    | some m =>
        rw [hf] at hdc
        exact ⟨m, rfl, of_decide_eq_true hdc⟩
  · intro nodes nid i
    unfold dependentIndices dependentSelProp
    rw [List.mem_filter]
    constructor
    · rintro ⟨-, hpred⟩
      cases hg : nodes.get? i with
      | none => rw [hg] at hpred; cases hpred
      | some n =>
          rw [hg] at hpred
          rw [Bool.and_eq_true] at hpred
          refine ⟨n, rfl, ?_, of_decide_eq_true hpred.2⟩
          have hc := hpred.1
          simpa using hc
    · rintro ⟨n, hg, hmem, hp⟩
      have hlt : i < nodes.length := by
        cases hlen : Nat.lt_or_ge i nodes.length with
        | inl h => exact h
        | inr h =>
            rw [List.get?_eq_none.mpr h] at hg
            cases hg
      refine ⟨List.mem_range.mpr hlt, ?_⟩
      rw [hg]
      rw [Bool.and_eq_true]
      constructor
      · simpa using hmem
      · exact decide_eq_true hp

/-- Witness for `claim_C1_amended` at a concrete graph: `demoReadyNode`
(depending on the already complete `n1`) is in the ready set and satisfies
`depsCompleteProp`; index 2 of the fast-path graph satisfies the
dependent-selection characterisation. -/
theorem claim_C1_amended_witness :
    depsCompleteProp demoNodes demoReadyNode
    ∧ (2 ∈ dependentIndices [blockedAskNodeWithSR, depNodeC, depNodeB] "a"
        ↔ dependentSelProp [blockedAskNodeWithSR, depNodeC, depNodeB] "a" 2) := by
  constructor
  · exact claim_C1_amended.1 demoNodes demoReadyNode (by decide) (by decide)
  · exact claim_C1_amended.2 [blockedAskNodeWithSR, depNodeC, depNodeB] "a" 2

/-- Claim C6 (confirmed): validation accepts a specification exactly when
none of the claim's invalidity conditions holds (no nodes; missing
id/question/rationale; duplicate id; a dependency that does not resolve to
an already-seen id; a gather node without a method; a WebSearch gather node
without queries; a Calculate node missing code, explanation or inputs) —
and a specification accepted by a generation round is always a fully
validated batch, so a malformed batch is never partially accepted. -/
theorem claim_C6_validation_exact :
    (∀ nodes : List InfoNodeSpec,
      exceptIsOk (validate_graph nodes) = true ↔ ¬ specGraphInvalid nodes)
    ∧ (∀ (contrib : List InfoNodeSpec) (explored : List ProcessingNode)
        (goal : String) (specs : List InfoNodeSpec),
        generate_sequential_graphs contrib explored goal = .ok specs →
        validate_graph specs = .ok () ∧ ¬ specGraphInvalid specs) := by
  constructor
  · exact validate_graph_ok_iff
  · intro contrib explored goal specs h
    obtain ⟨-, hval, -⟩ := generate_sequential_graphs_ok _ _ _ _ h
    refine ⟨hval, ?_⟩
    rw [← validate_graph_ok_iff, hval]
    rfl

/-- Witness for `claim_C6_validation_exact`: a concrete generation call
returning `ok` yields a validated, claim-valid batch. -/
theorem claim_C6_validation_exact_witness :
    validate_graph [specN1] = Except.ok () ∧ ¬ specGraphInvalid [specN1] := by
  exact claim_C6_validation_exact.2 [specN1] [] "goal" [specN1] (by decide)

/-- Claim C7 (code bug): the batch `set_user_input` behaves exactly as
claimed — unknown id: not-found error; known node not (Blocked, AskUser):
invalid-state error with nothing mutated; Blocked AskUser node: value set,
`value_source = "user"`, state `Complete`, fact folded in.  But the
suspend/resume `set_user_input` violates the success clause: after setting
`value` and `value_source` it raises `TypeError` from
`_send_node_value_update` (which iterates the node's `search_results`,
`None` for every ask-user node), leaving the node `Blocked` with its value
set and the fact set untouched. -/
theorem claim_C7_provide_input :
    (∀ (ag : AgentGraphs) (nid v : String),
      (∀ g, ag.key_info_graph = some g → g.findIdx? (fun n => n.id == nid) = none) →
      (∀ g, ag.exploration_graph = some g → g.findIdx? (fun n => n.id == nid) = none) →
      set_user_input ag nid v = .error ("Node " ++ nid ++ " not found"))
    ∧ (∀ (nodes : List ProcessingNode) (facts : Facts) (nid v : String) (i : Nat)
        (node : ProcessingNode),
        nodes.findIdx? (fun n => n.id == nid) = some i →
        nodes.get? i = some node →
        (¬ node.state = .blocked ∨ ¬ node.gathering_method = some .ask_user) →
        set_user_input_graph nodes facts nid v
          = some (.error ("Node " ++ nid ++ " is not waiting for user input")))
    ∧ (∀ (nodes : List ProcessingNode) (facts : Facts) (nid v : String) (i : Nat)
        (node : ProcessingNode),
        nodes.findIdx? (fun n => n.id == nid) = some i →
        nodes.get? i = some node →
        node.state = .blocked → node.gathering_method = some .ask_user →
        set_user_input_graph nodes facts nid v
          = some (.ok (nodes.set i
              { node with value := some v, value_source := some "user",
                          state := .complete },
              dictInsert facts node.question v)))
    ∧ (set_user_input agBlocked "u" "5000"
        = .ok { agBlocked with
                key_info_graph := some [{ blockedAskNode with
                  value := some "5000", value_source := some "user",
                  state := .complete }],
                gathered_facts := [("monthly budget", "5000")] })
    ∧ wsCrashRun.2 = some "TypeError: NoneType is not iterable"
    ∧ wsCrashRun.1.key_info_graph
        = some [{ blockedAskNode with value := some "5000",
                                      value_source := some "user" }]
    ∧ wsCrashRun.1.gathered_facts = [] := by
  refine ⟨?_, ?_, ?_, by decide, by decide, by decide, by decide⟩
  · intro ag nid v hk hx
    have hexpl : set_user_input_expl ag nid v
        = .error ("Node " ++ nid ++ " not found") := by
      unfold set_user_input_expl
      cases hxg : ag.exploration_graph with
      | none => rfl
      | some g =>
          have hsg : set_user_input_graph g ag.gathered_facts nid v = none := by
            unfold set_user_input_graph
            simp [hx g hxg]
          simp [hsg]
    unfold set_user_input
    cases hkg : ag.key_info_graph with
    | none => exact hexpl
    | some g =>
        have hsg : set_user_input_graph g ag.gathered_facts nid v = none := by
          unfold set_user_input_graph
          simp [hk g hkg]
        simp only [hsg]
        exact hexpl
  · intro nodes facts nid v i node hf hg hbad
    unfold set_user_input_graph
    simp only [hf, hg]
    rw [if_pos hbad]
  · intro nodes facts nid v i node hf hg h3 h4
    unfold set_user_input_graph
    simp only [hf, hg]
    rw [if_neg (by simp [h3, h4])]

/-- Witness for `claim_C7_provide_input`: its three general clauses applied
at concrete states. -/
theorem claim_C7_provide_input_witness :
    set_user_input emptyAgent "z" "v" = .error ("Node " ++ "z" ++ " not found")
    ∧ set_user_input_graph [askUserNode] [] "n2" "v"
        = some (.error ("Node " ++ "n2" ++ " is not waiting for user input"))
    ∧ set_user_input_graph [blockedAskNode] [] "u" "5000"
        = some (.ok ([blockedAskNode].set 0
            { blockedAskNode with value := some "5000",
                                  value_source := some "user",
                                  state := .complete },
            dictInsert [] blockedAskNode.question "5000")) := by
  refine ⟨?_, ?_, ?_⟩
  · exact claim_C7_provide_input.1 emptyAgent "z" "v"
      (by intro g h; cases h) (by intro g h; cases h)
  · exact claim_C7_provide_input.2.1 [askUserNode] [] "n2" "v" 0 askUserNode
      (by decide) rfl (Or.inl (by decide))
  · exact claim_C7_provide_input.2.2.1 [blockedAskNode] [] "u" "5000" 0 blockedAskNode
      (by decide) rfl rfl rfl

/-- Claim C8, counterexample (closed): with `max_depth = 3` and a
collaborator that contributes one node in round 0 and nothing afterwards,
round 1 contributes zero new nodes — yet round 2 is still entered (three
generation rounds run), because round 1's graph was seeded with the round-0
node and therefore was not empty.  (Round 2 then fails duplicate-id
validation on the doubly seeded node.) -/
theorem claim_C8_counterexample :
    contribOnce 1 = [] ∧ contribOnce 2 = []
    ∧ (gather_key_info envSearchOk contribOnce "goal" 3 []).rounds = 3 := by
  decide

/-- Claim C8, amended: the driver's zero-node early stop is unreachable — a
round that returns at all returns a validated non-empty graph (validation
rejects empty graphs, and the round is seeded with every previously
explored node), so every successful driver run executes exactly
`max_depth` rounds; a round in which the collaborator contributes nothing
new does not stop the loop. -/
theorem claim_C8_amended_no_early_stop :
    ∀ (env : Env) (contrib : Nat → List InfoNodeSpec) (goal : String) (d : Nat)
      (facts : Facts) (p : List ProcessingNode × Facts),
      (gather_key_info env contrib goal d facts).result = .ok p →
      (gather_key_info env contrib goal d facts).rounds = d := by
  intro env contrib goal d facts p h
  unfold gather_key_info at h ⊢
  have := gather_loop_rounds env contrib goal d 0 [] facts 0 p h
  simpa using this

/-- Witness for `claim_C8_amended_no_early_stop` at the concrete two-round
run. -/
theorem claim_C8_amended_no_early_stop_witness :
    (gather_key_info envSearchOk contribOnce "goal" 2 []).rounds = 2 := by
  cases h : (gather_key_info envSearchOk contribOnce "goal" 2 []).result with
  | error e =>
      have hok : exceptIsOk
          (gather_key_info envSearchOk contribOnce "goal" 2 []).result = true := by
        decide
      rw [h] at hok
      simp [exceptIsOk] at hok
  | ok p => exact claim_C8_amended_no_early_stop envSearchOk contribOnce "goal" 2 [] p h

/-- Claim C9, counterexample (closed): at `max_depth = 2` the cumulative
graph indeed holds the round-0 node's id twice, but at `max_depth = 3`
there is no cumulative result graph at all — the run raises (duplicate-id
validation fails on the doubly seeded node in round 2, after all three
rounds were entered), so the id does not appear "once per round" (which
would be 3). -/
theorem claim_C9_counterexample :
    (gather_key_info envSearchOk contribOnce "goal" 2 []).rounds = 2
    ∧ (match (gather_key_info envSearchOk contribOnce "goal" 2 []).result with
       | .ok p => countNodeId p.1 "n1"
       | .error _ => 0) = 2
    ∧ exceptIsOk (gather_key_info envSearchOk contribOnce "goal" 3 []).result = false
    ∧ (gather_key_info envSearchOk contribOnce "goal" 3 []).rounds = 3 := by
  decide

/-- Claim C9, amended: each round's generated graph is seeded with every
previously explored node (converted back to a fresh `Pending` processing
node), so later rounds re-process the whole cumulative list; consequently
the copies of an id double per completed round — a node contributed only in
round 0 appears `2 ^ (max_depth - 1)` times in a successful run's
cumulative graph (not once per round); for `max_depth ≥ 3` such runs
instead fail duplicate-id validation. -/
theorem claim_C9_amended_seeding_and_doubling :
    (∀ (contrib : List InfoNodeSpec) (explored : List ProcessingNode)
      (goal : String) (specs : List InfoNodeSpec),
      generate_sequential_graphs contrib explored goal = .ok specs →
      specs = convert_processed_nodes explored ++ contrib
      ∧ ∀ n ∈ create_processing_graph specs, n.state = .pending)
    ∧ (∀ (env : Env) (contrib : Nat → List InfoNodeSpec) (goal x : String)
        (d : Nat) (facts : Facts) (p : List ProcessingNode × Facts),
        1 ≤ d →
        (gather_key_info env contrib goal d facts).result = .ok p →
        (∀ k, 1 ≤ k → countSpecId (contrib k) x = 0) →
        countNodeId p.1 x = 2 ^ (d - 1) * countSpecId (contrib 0) x) := by
  constructor
  · intro contrib explored goal specs h
    obtain ⟨hseq, -, -⟩ := generate_sequential_graphs_ok _ _ _ _ h
    refine ⟨hseq, ?_⟩
    intro n hn
    unfold create_processing_graph at hn
    obtain ⟨s, hs, rfl⟩ := List.mem_map.mp hn
    rfl
  · intro env contrib goal x d facts p hd h hk
    cases d with
    | zero => omega
    | succ f =>
        unfold gather_key_info at h
        unfold gather_key_info_loop at h
        cases hg : generate_sequential_graphs (contrib 0) [] goal with
        | error e => simp [hg] at h
        | ok specs =>
            simp only [hg] at h
            obtain ⟨hseq, hval, hne⟩ := generate_sequential_graphs_ok _ _ _ _ hg
            cases hp : process_graph_fuel env
                (countPending (create_processing_graph specs) + 1)
                (create_processing_graph specs) facts with
            | none => simp [hp] at h
            | some r =>
                simp only [hp] at h
                have hr1 := round_graph_nonempty env specs facts r hne hp
                rw [if_neg hr1] at h
                have hcnt : countNodeId r.1 x = countSpecId (contrib 0) x := by
                  rw [countNodeId_process_graph env _ _ _ r x hp,
                    countNodeId_create, hseq]
                  rfl
                have hloop := gather_loop_count env contrib goal x f 1 (by omega) hk
                  ([] ++ r.1) r.2 1 p h
                rw [hloop]
                have hnil : countNodeId ([] ++ r.1) x = countNodeId r.1 x := rfl
                rw [hnil, hcnt]
                simp

/-- Witness for `claim_C9_amended_seeding_and_doubling` at the concrete
two-round run: the round-0 node's id appears `2 ^ 1 = 2` times. -/
theorem claim_C9_amended_seeding_and_doubling_witness :
    ∃ p, (gather_key_info envSearchOk contribOnce "goal" 2 []).result = Except.ok p
      ∧ countNodeId p.1 "n1" = 2 ^ (2 - 1) * countSpecId (contribOnce 0) "n1" := by
  cases h : (gather_key_info envSearchOk contribOnce "goal" 2 []).result with
  | error e =>
      have hok : exceptIsOk
          (gather_key_info envSearchOk contribOnce "goal" 2 []).result = true := by
        decide
      rw [h] at hok
      simp [exceptIsOk] at hok
  | ok p =>
      refine ⟨p, rfl, ?_⟩
      refine claim_C9_amended_seeding_and_doubling.2 envSearchOk contribOnce "goal"
        "n1" 2 [] p (by omega) h ?_
      intro k hk1
      cases k with
      | zero => omega
      | succ m => rfl

/-- Claim C10 (confirmed): batch processing always leaves the processed
node `Complete` or `Blocked` (never in an in-progress state, and `Blocked`
is not counted by `_has_in_progress_nodes`); a pass over a non-empty ready
set strictly shrinks the `Pending` population; hence the batch scheduler
loop reaches its exit condition within `countPending + 1` iterations for
every graph whose dependency ids resolve and that starts with no node in an
in-progress state (as every freshly converted graph does), even when
`Blocked` nodes remain. -/
theorem claim_C10_batch_scheduler_terminates :
    (∀ (env : Env) (nodes : List ProcessingNode) (facts : Facts)
      (node : ProcessingNode),
      (process_node env nodes facts node).1.state = .complete
      ∨ (process_node env nodes facts node).1.state = .blocked)
    ∧ (∀ nodes : List ProcessingNode,
        has_in_progress_nodes nodes = false ↔
          ∀ n ∈ nodes, ¬ n.state = .searching ∧ ¬ n.state = .calculating
            ∧ ¬ n.state = .needs_breakdown)
    ∧ (∀ (env : Env) (nodes : List ProcessingNode) (facts : Facts),
        ¬ (readyIndices nodes).isEmpty = true →
        countPending (processReadyAt env (readyIndices nodes) nodes facts).1
          < countPending nodes)
    ∧ (∀ (env : Env) (nodes : List ProcessingNode) (facts : Facts),
        (∀ m ∈ nodes, ∀ d ∈ m.depends_on_ids, (findNode nodes d).isSome = true) →
        has_in_progress_nodes nodes = false →
        (process_graph_fuel env (countPending nodes + 1) nodes facts).isSome = true) := by
  refine ⟨process_node_state, has_in_progress_false_iff, ?_, ?_⟩
  · intro env nodes facts hne
    cases hL : readyIndices nodes with
    | nil => rw [hL] at hne; simp at hne
    | cons i rest =>
        obtain ⟨n, hg, hr⟩ := readyIndices_mem nodes i
          (by rw [hL]; exact List.mem_cons_self i rest)
        exact countPending_processReadyAt_lt env i rest nodes facts n hg
          (isReady_pending nodes n hr)
  · intro env nodes facts _ hprog
    exact process_graph_fuel_isSome env (countPending nodes + 1) nodes facts
      (by omega) hprog

/-- Witness for `claim_C10_batch_scheduler_terminates` at a concrete fresh
one-node graph. -/
theorem claim_C10_batch_scheduler_terminates_witness :
    (process_graph_fuel envAllSearchesFail (countPending [askUserNode] + 1)
      [askUserNode] []).isSome = true := by
  exact claim_C10_batch_scheduler_terminates.2.2.2 envAllSearchesFail [askUserNode] []
    (by decide) (by decide)

end IdeaExploration
